import Mathlib

/-!
Shallow embedding of the order/cart/promo core of the `store` Django app
(src/store/models.py, src/store/views.py, src/store/utils.py,
src/store/admin.py).

Conventions of the embedding:
* Django `DecimalField` money amounts are modelled as `ℚ` (Decimal
  arithmetic on such fields is exact, so `ℚ` is a faithful carrier).
* `PositiveIntegerField` quantities are `ℕ`; `Product.stock` is carried as
  `ℤ` so that the non-negativity invariant is a provable statement rather
  than a property of the carrier type.
* `DateTimeField` instants are `ℤ` (an abstract totally ordered timestamp);
  `timezone.now()` becomes an explicit `now : ℤ` argument.
* nullable fields are `Option _`; Python truthiness of a `Decimal` value
  (`if self.max_discount:`, `x or y`) is modelled explicitly: `none` and
  `some 0` are both falsy.
* database writes are modelled by returning the updated record; a Django
  `save(update_fields=[...])` persists only the listed fields, and the
  models below update exactly those fields.
-/

namespace Store

/-- Python `a or b` for an optional Decimal `a` (models.py:280
`self.product.discount_price or self.product.price`): `None` and `0` are
falsy, any other value is returned as-is. -/
def orDecimal (a : Option ℚ) (b : ℚ) : ℚ :=
  match a with
  | none => b
  | some x => if x = 0 then b else x

/-- Product row (models.py:58-122); only the columns the business logic
reads.  `stock` is a `PositiveIntegerField`, carried as `ℤ` (see header). -/
structure Product where
  id : ℕ
  name : String
  price : ℚ
  discount_price : Option ℚ
  stock : ℤ
  available : Bool
deriving Repr, DecidableEq

/-- Cart line (models.py:249-286); `unique_together = (cart, product)`
(models.py:272) is stated as a hypothesis where a claim needs it. -/
structure CartItem where
  product : Product
  quantity : ℕ
deriving Repr, DecidableEq

/-- models.py:278-281 `CartItem.get_cost`. -/
def CartItem.get_cost (it : CartItem) : ℚ :=
  orDecimal it.product.discount_price it.product.price * it.quantity

/-- models.py:238-239 `Cart.get_total_price`: sum of item costs. -/
def cartTotalPrice (items : List CartItem) : ℚ :=
  (items.map CartItem.get_cost).sum

/-- models.py:291-296 `PromoCode.DISCOUNT_TYPES`. -/
inductive DiscountType where
  | percentage
  | flat
deriving Repr, DecidableEq

/-- Reason strings returned by `PromoCode.is_valid` (models.py:363-381),
abstracted to an enumeration. -/
inductive PromoReason where
  | valid
  | inactive
  | notYetValid
  | expired
  | usageLimitReached
  | belowMinPurchase
deriving Repr, DecidableEq

/-- Promo code row (models.py:289-338). -/
structure PromoCode where
  code : String
  discount_type : DiscountType
  discount_value : ℚ
  max_discount : Option ℚ
  min_purchase : ℚ
  max_usage : Option ℕ
  used_count : ℕ
  is_active : Bool
  valid_from : ℤ
  valid_until : Option ℤ
deriving Repr, DecidableEq

/-- models.py:363-381 `PromoCode.is_valid(cart_total)`: the five guard
checks in source order, each returning `(False, reason)` and
short-circuiting; `timezone.now()` is the explicit `now` argument. -/
def PromoCode.is_valid (p : PromoCode) (now : ℤ) (cart_total : ℚ) :
    Bool × PromoReason :=
  if ¬ p.is_active then (false, .inactive)
  else if now < p.valid_from then (false, .notYetValid)
  else if (match p.valid_until with
           | some u => decide (now > u)
           | none => false) = true then (false, .expired)
  else if (match p.max_usage with
           | some m => decide (p.used_count ≥ m)
           | none => false) = true then (false, .usageLimitReached)
  else if cart_total < p.min_purchase then (false, .belowMinPurchase)
  else (true, .valid)

/-- models.py:383-390 `PromoCode.calculate_discount(amount)`.  Note the
clamp is guarded by Python truthiness `if self.max_discount:`, which is
false both for `None` and for a stored value of `0`. -/
def PromoCode.calculate_discount (p : PromoCode) (amount : ℚ) : ℚ :=
  if p.discount_type = .percentage then
    let discount := amount * p.discount_value / 100
    match p.max_discount with
    | some m => if m = 0 then discount else min discount m
    | none => discount
  else
    min p.discount_value amount

/-- models.py:392-395 `PromoCode.use()`: increments `used_count` by one and
persists that field. -/
def PromoCode.use (p : PromoCode) : PromoCode :=
  { p with used_count := p.used_count + 1 }

/-- models.py:462-467 `Order.STATUS_CHOICES`. -/
inductive OrderStatus where
  | pending
  | processing
  | shipped
  | delivered
  | cancelled
  | refunded
deriving Repr, DecidableEq

/-- models.py:478-482 `Order.PAYMENT_STATUS_CHOICES`. -/
inductive PaymentStatus where
  | pending
  | paid
  | failed
  | refunded
  | partiallyRefunded
deriving Repr, DecidableEq

/-- models.py:492-494 `Order.PAYMENT_METHOD_CHOICES`. -/
inductive PaymentMethod where
  | cod
  | stripe
  | paypal
deriving Repr, DecidableEq

/-- Order row (models.py:460-600); the columns touched by the claims.  The
promo reference (`promo_code` FK) carries the referenced row itself. -/
structure Order where
  order_number : String
  status : OrderStatus
  payment_status : PaymentStatus
  payment_method : PaymentMethod
  payment_id : String
  subtotal : ℚ
  tax_amount : ℚ
  shipping_cost : ℚ
  discount_amount : ℚ
  total : ℚ
  promo_code : Option PromoCode
deriving Repr, DecidableEq

/-- models.py:615-619 `Order.save`: a full (no `update_fields`) save
assigns a generated `order_number` when the field is empty and then
unconditionally recomputes `total` from the other monetary columns.  The
random generator `_generate_order_number` is abstracted into the argument
`gen`. -/
def Order.save (gen : String) (o : Order) : Order :=
  let o1 := if o.order_number = "" then { o with order_number := gen } else o
  { o1 with
    total := o1.subtotal + o1.tax_amount + o1.shipping_cost - o1.discount_amount }

/-- models.py:631-636 `Order.mark_as_paid(payment_id=None)`: sets
`payment_status` to paid and, when `payment_id` is truthy (not `None`, not
the empty string), stores it; saved with
`update_fields=['payment_status', 'payment_id', 'updated_at']`, so only
those columns are persisted. -/
def Order.mark_as_paid (pid : Option String) (o : Order) : Order :=
  { o with
    payment_status := .paid
    payment_id := match pid with
      | some s => if s = "" then o.payment_id else s
      | none => o.payment_id }

/-- models.py:638-640 `Order.can_cancel`: status in {pending, processing}. -/
def Order.can_cancel (o : Order) : Bool :=
  match o.status with
  | .pending => true
  | .processing => true
  | _ => false

/-- models.py:642-648 `Order.cancel`: raises `ValidationError` (modelled as
`Except.error ()`) before any mutation when `can_cancel` is false;
otherwise sets status to cancelled and saves
(`update_fields=['status', 'updated_at']`). -/
def Order.cancel (o : Order) : Except Unit Order :=
  if ¬ o.can_cancel then .error ()
  else .ok { o with status := .cancelled }

/-! ### Pricing utilities (src/store/utils.py)

`calculate_tax` (utils.py:137-139) is
`Decimal(str(round(float(amount) * tax_rate, 2)))`: it leaves exact
`Decimal` arithmetic and goes through IEEE-754 binary64.  The embedding
models binary64 values as the exact rationals they denote and
round-to-nearest, ties-to-even on 53 significant bits; overflow and
subnormals are ignored (monetary magnitudes are in the normal range).
Python's `round(x, 2)` returns the float nearest to the correctly rounded
(ties-to-even) two-decimal value of the exact binary value of `x`, and
`Decimal(str(...))` recovers that two-decimal value exactly (a value with
at most ~15 significant digits round-trips through the shortest float
repr), so the composition is the two-decimal ties-to-even rounding of the
product float. -/

/-- Round a rational to the nearest integer, ties to even. -/
def rnHalfEvenZ (q : ℚ) : ℤ :=
  let f := ⌊q⌋
  let r := q - f
  if r < 1/2 then f
  else if 1/2 < r then f + 1
  else if f % 2 = 0 then f else f + 1

/-- Floor of the base-2 logarithm of a positive rational. -/
def floorLog2 (q : ℚ) : ℤ := Int.log 2 q

/-- Nearest binary64 value (ties to even) of a positive rational in the
normal range: round the 53-bit significand. -/
def roundToDoublePos (q : ℚ) : ℚ :=
  let s : ℤ := 52 - floorLog2 q
  (rnHalfEvenZ (q * (2 : ℚ) ^ s) : ℚ) / (2 : ℚ) ^ s

/-- Nearest binary64 value of a rational (normal range; IEEE rounding is
symmetric about zero). -/
def roundToDouble (q : ℚ) : ℚ :=
  if q = 0 then 0
  else if 0 < q then roundToDoublePos q
  else -(roundToDoublePos (-q))

/-- utils.py:137-139 `calculate_tax(amount, tax_rate=0.18)`:
`Decimal(str(round(float(amount) * tax_rate, 2)))`.  `float(amount)` and
the float literal `tax_rate` are binary64 values, their product is rounded
to binary64, and `round(..., 2)` rounds that value to two decimal places,
ties to even.  Every call site in the repository uses the default rate,
passed here explicitly as `18/100`. -/
def calculate_tax (amount : ℚ) (tax_rate : ℚ) : ℚ :=
  let product := roundToDouble (roundToDouble amount * roundToDouble tax_rate)
  (rnHalfEvenZ (product * 100) : ℚ) / 100

/-- Shipping method row (models.py:811-848); the columns read by
`calculate_shipping_cost`. -/
structure ShippingMethod where
  price : ℚ
  min_order_amount : ℚ
  is_active : Bool
deriving Repr, DecidableEq

/-- utils.py:142-156 `calculate_shipping_cost(order_total,
shipping_method=None)`: free when the total reaches the method's
`min_order_amount`, else the method's price; with no method, free above the
site-wide `SiteSettings.min_order_amount`, else the fixed default 50.
(The `hasattr` guard on the settings row is always true.) -/
def calculate_shipping_cost (order_total : ℚ)
    (shipping_method : Option ShippingMethod)
    (site_min_order_amount : ℚ) : ℚ :=
  match shipping_method with
  | some m => if order_total ≥ m.min_order_amount then 0 else m.price
  | none => if order_total ≥ site_min_order_amount then 0 else 50

/-! ### View-layer actions (src/store/views.py, src/store/admin.py) -/

/-- views.py:192-228 `delivery_order_update`: dispatch on the posted
`action` string; each branch mutates the listed fields of the assigned
order and persists them (`mark_paid_*` via `Order.mark_as_paid`, the
status branches via `save(update_fields=['status', 'updated_at'])`).
An unrecognised action leaves the order untouched. -/
def delivery_order_update (action : String) (o : Order) : Order :=
  if action = "mark_paid_cod" then
    Order.mark_as_paid none { o with payment_method := .cod }
  else if action = "mark_paid_online" then
    Order.mark_as_paid none { o with payment_method := .stripe }
  else if action = "mark_processing" then { o with status := .processing }
  else if action = "mark_shipped" then { o with status := .shipped }
  else if action = "mark_delivered" then { o with status := .delivered }
  else o

/-- admin.py:550-553 `OrderAdmin.mark_as_delivered`:
`queryset.update(status=STATUS_DELIVERED, payment_status=PAYMENT_STATUS_PAID)`
— a raw column update of exactly these two fields on every selected row
(bypassing `Order.save`). -/
def OrderAdmin.mark_as_delivered (queryset : List Order) : List Order :=
  queryset.map fun o => { o with status := .delivered, payment_status := .paid }

/-- views.py:267-286 `cart_add(request, product_id)`:
`get_object_or_404(Product, id=product_id, available=True)` (modelled as
`none` when the product is unavailable), then
`get_or_create(cart=cart, product=product)` followed by
`item.quantity = max(quantity, 1)` on create or
`item.quantity += max(quantity, 1)` on an existing line.  `req` is the
parsed POST quantity (default 1 on a non-POST request or a parse failure,
handled by the caller of this model). -/
def cart_add (cart : List CartItem) (product : Product) (req : ℤ) :
    Option (List CartItem) :=
  if ¬ product.available then none
  else if cart.any (fun it => it.product.id == product.id) then
    some (cart.map fun it =>
      if it.product.id == product.id then
        { it with quantity := it.quantity + (max req 1).toNat }
      else it)
  else
    some (cart ++ [{ product := product, quantity := (max req 1).toNat }])

/-! ### Checkout transaction (views.py:339-492 `checkout`, POST branch) -/

/-- Payment row statuses (models.py:697-700). -/
inductive PayRecStatus where
  | pending
  | completed
  | failed
  | refunded
deriving Repr, DecidableEq

/-- Payment row as created at checkout (models.py:695-774,
views.py:431-437). -/
structure PaymentRec where
  payment_method : PaymentMethod
  payment_status : PayRecStatus
  amount : ℚ
deriving Repr, DecidableEq

/-- Order line row (models.py:654-689); `OrderItem.save` (models.py:687-689)
sets `subtotal = price * quantity`. -/
structure OrderItemRec where
  product : Product
  product_name : String
  price : ℚ
  quantity : ℕ
  subtotal : ℚ
deriving Repr, DecidableEq

/-- views.py:463-472: the OrderItem created for one cart line, with the
price snapshot `item.product.discount_price or item.product.price`. -/
def orderItemRow (it : CartItem) : OrderItemRec :=
  let price := orDecimal it.product.discount_price it.product.price
  { product := it.product
    product_name := it.product.name
    price := price
    quantity := it.quantity
    subtotal := price * it.quantity }

/-- views.py:473-476: the product row for one cart line after the guarded
stock decrement — decremented by the line quantity only when
`item.product.stock >= item.quantity`, otherwise silently left as-is. -/
def stockUpdateRow (it : CartItem) : Product :=
  if (it.quantity : ℤ) ≤ it.product.stock then
    { it.product with stock := it.product.stock - it.quantity }
  else it.product

/-- The rows written by a successful checkout commit. -/
structure CheckoutResult where
  order : Order
  payment : PaymentRec
  orderItems : List OrderItemRec
  products : List Product
  promoAfter : Option PromoCode
  cartAfter : List CartItem
deriving Repr, DecidableEq

/-- views.py:361-372 / 402-403: the discount the checkout view applies —
the session promo is re-validated against the freshly recomputed cart
total, and a failed re-validation yields a discount of 0 (while the promo
object itself stays referenced). -/
def checkoutDiscount (items : List CartItem) (sessionPromo : Option PromoCode)
    (now : ℤ) : ℚ :=
  match sessionPromo with
  | none => 0
  | some p =>
    if (p.is_valid now (cartTotalPrice items)).1 then
      p.calculate_discount (cartTotalPrice items)
    else 0

/-- views.py:339-492 `checkout`, the POST commit path, as one atomic
function from the read state to the written rows.

Arguments mirror the ambient state the view reads:
`items` the cart lines (views.py:343), `sessionPromo` the result of
`PromoCode.objects.get(code__iexact=applied_promo_code, is_active=True)`
for the session's applied code (views.py:363-372; `none` when no code is
applied or the lookup raises `DoesNotExist`, so a found promo always has
`is_active = true`), `now` the ambient clock used by `PromoCode.is_valid`,
`shippingMethod` the validated form's optional shipping method
(views.py:406-410), `siteMinOrder` the `SiteSettings.min_order_amount`
(views.py:349-359), and `gen` the generated order number.

`none` models the early redirects (empty cart, minimum order not met); the
form-validation failure path writes nothing and re-renders, so it is out of
scope of the commit.  Address creation, delivery-agent assignment and the
confirmation e-mail touch no field any claim mentions and are omitted. -/
def checkout (items : List CartItem) (sessionPromo : Option PromoCode)
    (now : ℤ) (shippingMethod : Option ShippingMethod) (siteMinOrder : ℚ)
    (gen : String) : Option CheckoutResult :=
  if items.isEmpty then none
  else
    let cart_total := cartTotalPrice items
    if siteMinOrder > 0 ∧ cart_total < siteMinOrder then none
    else
      -- views.py:361-372: promo re-validation against the fresh total;
      -- a failed re-validation leaves discount_amount = 0 but keeps
      -- promo_code_obj set.
      let discount_amount : ℚ := checkoutDiscount items sessionPromo now
      -- views.py:402-412: totals.
      let subtotal := cart_total
      let tax_amount := calculate_tax (subtotal - discount_amount) (18/100)
      let shipping_cost :=
        calculate_shipping_cost subtotal shippingMethod siteMinOrder
      let total := subtotal + tax_amount + shipping_cost - discount_amount
      -- views.py:414-429: Order.objects.create(...) runs Order.save.
      let order := Order.save gen
        { order_number := ""
          status := .pending
          payment_status := .pending
          payment_method := .cod
          payment_id := ""
          subtotal := subtotal
          tax_amount := tax_amount
          shipping_cost := shipping_cost
          discount_amount := discount_amount
          total := 0
          promo_code := sessionPromo }
      -- views.py:431-437: Payment record.
      let payment : PaymentRec :=
        { payment_method := .cod, payment_status := .pending, amount := total }
      -- views.py:462-476: order items and guarded stock decrements.
      let orderItems := items.map orderItemRow
      let products := items.map stockUpdateRow
      -- views.py:478-481: promo usage increment when a promo object is set,
      -- regardless of the re-validation outcome.
      let promoAfter := sessionPromo.map PromoCode.use
      -- views.py:483-484: cart.clear().
      some { order := order
             payment := payment
             orderItems := orderItems
             products := products
             promoAfter := promoAfter
             cartAfter := [] }

/-! ### Spec-side formulations, for comparison with the source functions -/

/-- The tax computation as the spec words it: `amount × rate` (rate fixed at
its default 18/100) rounded to 2 decimal places with standard round-half-up
rounding, in exact arithmetic. -/
def calculate_tax_specHalfUp (amount : ℚ) : ℚ :=
  (⌊amount * (18/100) * 100 + 1/2⌋ : ℚ) / 100

/-- The discount computation as the claim words it: for a percentage promo,
`amount * discount_value / 100` clamped to `max_discount` whenever
`max_discount` is set; for a flat promo, `min(discount_value, amount)`. -/
def calculate_discount_specClampWhenSet (p : PromoCode) (amount : ℚ) : ℚ :=
  if p.discount_type = .percentage then
    match p.max_discount with
    | some m => min (amount * p.discount_value / 100) m
    | none => amount * p.discount_value / 100
  else
    min p.discount_value amount

/-- The discount computation as amended: the clamp applies only when
`max_discount` is set *and nonzero* (a stored 0 behaves as unset). -/
def calculate_discount_amendedSpec (p : PromoCode) (amount : ℚ) : ℚ :=
  if p.discount_type = .percentage then
    if p.max_discount.getD 0 = 0 then amount * p.discount_value / 100
    else min (amount * p.discount_value / 100) (p.max_discount.getD 0)
  else
    min p.discount_value amount

/-- The spec's promo validity checks as predicates: `promoNotYetStarted`,
`promoExpired` and `promoExhausted` name the individual failure conditions
(the latter two only fire when their optional bound is set). -/
def promoExpired (p : PromoCode) (now : ℤ) : Prop :=
  ∃ u, p.valid_until = some u ∧ now > u

/-- Usage-exhaustion condition: `max_usage` is set and reached. -/
def promoExhausted (p : PromoCode) : Prop :=
  ∃ m, p.max_usage = some m ∧ p.used_count ≥ m

/-! ### Concrete rows used by counterexamples and witnesses -/

/-- A plain in-stock product: list price 100, no discount price, stock 10. -/
def exProduct : Product :=
  { id := 1, name := "Rice 5kg", price := 100, discount_price := none,
    stock := 10, available := true }

/-- A product whose `discount_price` is stored as exactly 0. -/
def exProductZeroDisc : Product :=
  { id := 2, name := "Sugar 1kg", price := 40, discount_price := some 0,
    stock := 8, available := true }

/-- A product with stock 1, to be ordered with quantity 2. -/
def exProductLowStock : Product :=
  { id := 3, name := "Ghee 1l", price := 600, discount_price := none,
    stock := 1, available := true }

/-- Cart line: 2 × `exProduct`. -/
def exItem : CartItem := { product := exProduct, quantity := 2 }

/-- Cart line: 2 × `exProductLowStock` (more than the available stock). -/
def exItemLowStock : CartItem := { product := exProductLowStock, quantity := 2 }

/-- Cart line: 3 × `exProductZeroDisc`. -/
def exItemZeroDisc : CartItem := { product := exProductZeroDisc, quantity := 3 }

/-- An active but expired promo: `valid_until = 5` while checkout happens at
`now = 10`. -/
def exExpiredPromo : PromoCode :=
  { code := "SAVE10", discount_type := .percentage, discount_value := 10,
    max_discount := none, min_purchase := 0, max_usage := none,
    used_count := 0, is_active := true, valid_from := 0, valid_until := some 5 }

/-- A percentage promo with `max_discount` stored as 0. -/
def exPromoMaxZero : PromoCode :=
  { code := "ZEROCAP", discount_type := .percentage, discount_value := 10,
    max_discount := some 0, min_purchase := 0, max_usage := none,
    used_count := 0, is_active := true, valid_from := 0, valid_until := none }

/-- The spec's example promo: 10% with `max_discount = 50`. -/
def exPromoTenCapFifty : PromoCode :=
  { code := "TEN50", discount_type := .percentage, discount_value := 10,
    max_discount := some 50, min_purchase := 0, max_usage := none,
    used_count := 0, is_active := true, valid_from := 0, valid_until := none }

/-- The spec's example promo: flat 200. -/
def exPromoFlat200 : PromoCode :=
  { code := "FLAT200", discount_type := .flat, discount_value := 200,
    max_discount := none, min_purchase := 0, max_usage := none,
    used_count := 0, is_active := true, valid_from := 0, valid_until := none }

/-- A pending, unpaid cash-on-delivery order. -/
def exOrderPending : Order :=
  { order_number := "ORD-20260101-AAAAAA", status := .pending,
    payment_status := .pending, payment_method := .cod, payment_id := "",
    subtotal := 200, tax_amount := 36, shipping_cost := 0,
    discount_amount := 0, total := 236, promo_code := none }

/-- A shipped order (cancelling it must be refused). -/
def exOrderShipped : Order :=
  { exOrderPending with
    order_number := "ORD-20260101-BBBBBB"
    status := .shipped }

/-! ### Helper lemmas -/

/-- Evaluation rule for `floorLog2` at a concrete input: it is the unique
`k` with `2 ^ k ≤ q < 2 ^ (k + 1)`. -/
theorem floorLog2_eval {q : ℚ} {k : ℤ} (h0 : 0 < q)
    (h1 : (2 : ℚ) ^ k ≤ q) (h2 : q < (2 : ℚ) ^ (k + 1)) : floorLog2 q = k := by
  unfold floorLog2
  have hle : k ≤ Int.log 2 q :=
    (Int.zpow_le_iff_le_log (by norm_num) h0).1 (by exact_mod_cast h1)
  have hlt : Int.log 2 q < k + 1 :=
    (Int.lt_zpow_iff_log_lt (by norm_num) h0).1 (by exact_mod_cast h2)
  omega

/-- Normal form of a committing checkout: once the cart is nonempty and the
site minimum-order check passes, `checkout` writes exactly these rows. -/
theorem checkout_eq (items : List CartItem) (sp : Option PromoCode) (now : ℤ)
    (sm : Option ShippingMethod) (smin : ℚ) (gen : String)
    (hne : items ≠ [])
    (hmin : ¬ (smin > 0 ∧ cartTotalPrice items < smin)) :
    checkout items sp now sm smin gen = some
      { order := Order.save gen
          { order_number := ""
            status := .pending
            payment_status := .pending
            payment_method := .cod
            payment_id := ""
            subtotal := cartTotalPrice items
            tax_amount := calculate_tax
              (cartTotalPrice items - checkoutDiscount items sp now) (18/100)
            shipping_cost :=
              calculate_shipping_cost (cartTotalPrice items) sm smin
            discount_amount := checkoutDiscount items sp now
            total := 0
            promo_code := sp }
        payment :=
          { payment_method := .cod
            payment_status := .pending
            amount := cartTotalPrice items +
              calculate_tax
                (cartTotalPrice items - checkoutDiscount items sp now)
                (18/100) +
              calculate_shipping_cost (cartTotalPrice items) sm smin -
              checkoutDiscount items sp now }
        orderItems := items.map orderItemRow
        products := items.map stockUpdateRow
        promoAfter := sp.map PromoCode.use
        cartAfter := [] } := by
  have hempty : items.isEmpty = false := by
    cases items with
    | nil => exact absurd rfl hne
    | cons a as => rfl
  simp only [checkout, hempty, Bool.false_eq_true, if_false, if_neg hmin]

/-- Projections of `Order.save` on a fresh checkout order header: the
monetary columns are persisted unchanged, `promo_code` is kept, and
`order_number` receives the generated value. -/
theorem order_save_fresh_projections (gen : String) (o : Order)
    (hnum : o.order_number = "") :
    (Order.save gen o).subtotal = o.subtotal ∧
      (Order.save gen o).tax_amount = o.tax_amount ∧
      (Order.save gen o).shipping_cost = o.shipping_cost ∧
      (Order.save gen o).discount_amount = o.discount_amount ∧
      (Order.save gen o).promo_code = o.promo_code ∧
      (Order.save gen o).status = o.status ∧
      (Order.save gen o).payment_status = o.payment_status ∧
      (Order.save gen o).order_number = gen := by
  unfold Order.save
  rw [if_pos hnum]
  exact ⟨rfl, rfl, rfl, rfl, rfl, rfl, rfl, rfl⟩

/-! ### Claim theorems -/

/-- Claim C1: on every (full) save of an Order record, `Order.save`
recomputes `total` and enforces
`total = subtotal + tax_amount + shipping_cost - discount_amount`
(models.py:615-619); the monetary fields are `Decimal` values, so the
equality is exact 2-decimal-place arithmetic, and it holds whatever state
the record was in before the save. -/
theorem order_save_enforces_total_invariant (gen : String) (o : Order) :
    (Order.save gen o).total =
      (Order.save gen o).subtotal + (Order.save gen o).tax_amount +
        (Order.save gen o).shipping_cost - (Order.save gen o).discount_amount := by
  unfold Order.save
  split <;> rfl

/-- Claim C3, counterexample: the delivery-agent mark-delivered action
(views.py:219-222) sets `status = delivered` but does NOT force
`payment_status = paid`: on a pending cash-on-delivery order it leaves the
payment status `pending`.  This refutes the claim that every mark-delivered
invocation (delivery-agent action included) forces `payment_status = paid`
in the same commit. -/
theorem delivery_mark_delivered_leaves_payment_pending :
    (delivery_order_update "mark_delivered" exOrderPending).status =
        .delivered ∧
      (delivery_order_update "mark_delivered" exOrderPending).payment_status =
        .pending ∧
      (delivery_order_update "mark_delivered" exOrderPending).payment_status ≠
        .paid := by
  refine ⟨rfl, rfl, ?_⟩
  intro h
  simp [delivery_order_update, exOrderPending] at h

/-- Claim C3, amended: only the admin bulk action
`OrderAdmin.mark_as_delivered` (admin.py:550-553) couples the two fields —
it sets `status = delivered` and `payment_status = paid` on every selected
row in one update; the delivery-agent action `mark_delivered`
(views.py:219-222) sets `status = delivered` only and leaves
`payment_status` unchanged. -/
theorem mark_as_delivered_paths (o : Order) (qs : List Order) :
    (OrderAdmin.mark_as_delivered qs =
      qs.map fun x => { x with status := .delivered, payment_status := .paid }) ∧
    (delivery_order_update "mark_delivered" o).status = .delivered ∧
    (delivery_order_update "mark_delivered" o).payment_status =
      o.payment_status ∧
    (delivery_order_update "mark_delivered" o).subtotal = o.subtotal ∧
    (delivery_order_update "mark_delivered" o).total = o.total := by
  refine ⟨rfl, ?_, ?_, ?_, ?_⟩ <;> rfl

/-- Claim C6, counterexample: `PromoCode.calculate_discount`
(models.py:383-390) guards the clamp with Python truthiness
(`if self.max_discount:`), so a percentage promo whose `max_discount` is
stored as exactly 0 is NOT clamped: 10% of 1000 with `max_discount = 0`
yields 100, while the claim's reading (clamp whenever `max_discount` is
set) would yield 0. -/
theorem calculate_discount_max_discount_zero_not_clamped :
    exPromoMaxZero.calculate_discount 1000 = 100 ∧
      calculate_discount_specClampWhenSet exPromoMaxZero 1000 = 0 ∧
      exPromoMaxZero.calculate_discount 1000 ≠
        calculate_discount_specClampWhenSet exPromoMaxZero 1000 := by
  refine ⟨?_, ?_, ?_⟩ <;>
    norm_num [PromoCode.calculate_discount, calculate_discount_specClampWhenSet,
      exPromoMaxZero]

/-- Claim C6, amended: `calculate_discount` returns
`amount * discount_value / 100` for a percentage promo, clamped to
`max_discount` when `max_discount` is set *and nonzero* (a stored 0 behaves
as unset), and `min(discount_value, amount)` for a flat promo; in
particular the 10%-cap-50 example yields 50 on amount 1000 and the flat-200
example yields 150 on amount 150. -/
theorem calculate_discount_spec (p : PromoCode) (amount : ℚ) :
    p.calculate_discount amount = calculate_discount_amendedSpec p amount ∧
      exPromoTenCapFifty.calculate_discount 1000 = 50 ∧
      exPromoFlat200.calculate_discount 150 = 150 := by
  refine ⟨?_, ?_, ?_⟩
  · unfold PromoCode.calculate_discount calculate_discount_amendedSpec
    rcases hmd : p.max_discount with _ | m
    · simp
    · by_cases hm : m = 0 <;> simp [hm]
  · norm_num [PromoCode.calculate_discount, exPromoTenCapFifty]
  · norm_num [PromoCode.calculate_discount, exPromoFlat200]
    decide

/-- Claim C8: `Order.cancel` (models.py:638-648) succeeds exactly from
status pending or processing, setting status to cancelled; from any other
status it raises `ValidationError` (modelled by `Except.error`) before any
mutation, so the persisted order — its status included — is unchanged. -/
theorem order_cancel_guarded (o : Order) :
    (Order.can_cancel o = true ↔
      (o.status = .pending ∨ o.status = .processing)) ∧
    ((o.status = .pending ∨ o.status = .processing) →
      Order.cancel o = .ok { o with status := .cancelled }) ∧
    (o.status ≠ .pending → o.status ≠ .processing →
      Order.cancel o = .error ()) := by
  unfold Order.cancel Order.can_cancel
  rcases o with ⟨num, st, ps, pm, pid, sub, tax, ship, disc, tot, promo⟩
  cases st <;> simp

/-- Witness for `order_cancel_guarded`: cancelling the concrete shipped
order `exOrderShipped` is refused with a state-conflict error. -/
theorem order_cancel_guarded_witness :
    Order.cancel exOrderShipped = .error () :=
  (order_cancel_guarded exOrderShipped).2.2 (by decide) (by decide)

/-- Claim C7: `PromoCode.is_valid` (models.py:363-381) checks, in this
fixed order — inactive; not yet valid (`now < valid_from`); expired
(`valid_until` set and `now > valid_until`); usage exhausted
(`max_usage` set and `used_count >= max_usage`); cart total below
`min_purchase` — and the first failing check short-circuits with its
reason; when every check passes the verdict is valid.  The six conjuncts
cover all cases, each conditioned on every earlier check passing, so
together they pin down the whole priority order.  The embedding of
`is_valid` is a pure function of the promo row, the clock and the cart
total — exactly mirroring the source, which only reads `self` and returns
a verdict — so a failed validation has no side effect on the promo's
state. -/
theorem promo_is_valid_check_order (p : PromoCode) (now : ℤ) (t : ℚ) :
    (p.is_active = false → p.is_valid now t = (false, .inactive)) ∧
    (p.is_active = true → now < p.valid_from →
      p.is_valid now t = (false, .notYetValid)) ∧
    (p.is_active = true → ¬ now < p.valid_from → promoExpired p now →
      p.is_valid now t = (false, .expired)) ∧
    (p.is_active = true → ¬ now < p.valid_from → ¬ promoExpired p now →
      promoExhausted p →
      p.is_valid now t = (false, .usageLimitReached)) ∧
    (p.is_active = true → ¬ now < p.valid_from → ¬ promoExpired p now →
      ¬ promoExhausted p → t < p.min_purchase →
      p.is_valid now t = (false, .belowMinPurchase)) ∧
    (p.is_active = true → ¬ now < p.valid_from → ¬ promoExpired p now →
      ¬ promoExhausted p → ¬ t < p.min_purchase →
      p.is_valid now t = (true, .valid)) := by
  unfold PromoCode.is_valid promoExpired promoExhausted
  refine ⟨?_, ?_, ?_, ?_, ?_, ?_⟩
  · intro h1
    simp [h1]
  · intro h1 h2
    simp [h1, h2]
  · rintro h1 h2 ⟨u, hu, hgt⟩
    simp [h1, h2, hu, hgt]
  · rintro h1 h2 hnexp ⟨m, hm, hge⟩
    rcases hvu : p.valid_until with _ | u
    · simp [h1, h2, hvu, hm, hge]
    · have hng : ¬ now > u := fun hg => hnexp ⟨u, hvu, hg⟩
      simp [h1, h2, hvu, hng, hm, hge]
  · intro h1 h2 hnexp hnexh h5
    rcases hvu : p.valid_until with _ | u <;>
      rcases hmu : p.max_usage with _ | m
    · simp [h1, h2, hvu, hmu, h5]
    · have hlt : ¬ p.used_count ≥ m := fun hge => hnexh ⟨m, hmu, hge⟩
      simp [h1, h2, hvu, hmu, hlt, h5]
    · have hng : ¬ now > u := fun hg => hnexp ⟨u, hvu, hg⟩
      simp [h1, h2, hvu, hng, hmu, h5]
    · have hng : ¬ now > u := fun hg => hnexp ⟨u, hvu, hg⟩
      have hlt : ¬ p.used_count ≥ m := fun hge => hnexh ⟨m, hmu, hge⟩
      simp [h1, h2, hvu, hng, hmu, hlt, h5]
  · intro h1 h2 hnexp hnexh h5
    rcases hvu : p.valid_until with _ | u <;>
      rcases hmu : p.max_usage with _ | m
    · simp [h1, h2, hvu, hmu, h5]
    · have hlt : ¬ p.used_count ≥ m := fun hge => hnexh ⟨m, hmu, hge⟩
      simp [h1, h2, hvu, hmu, hlt, h5]
    · have hng : ¬ now > u := fun hg => hnexp ⟨u, hvu, hg⟩
      simp [h1, h2, hvu, hng, hmu, h5]
    · have hng : ¬ now > u := fun hg => hnexp ⟨u, hvu, hg⟩
      have hlt : ¬ p.used_count ≥ m := fun hge => hnexh ⟨m, hmu, hge⟩
      simp [h1, h2, hvu, hng, hmu, hlt, h5]

/-- Witness for `promo_is_valid_check_order`: the concrete active promo
`exExpiredPromo` at `now = 10` (past its `valid_until = 5`) fails with the
expired reason. -/
theorem promo_is_valid_check_order_witness :
    exExpiredPromo.is_valid 10 100 = (false, .expired) :=
  (promo_is_valid_check_order exExpiredPromo 10 100).2.2.1 rfl
    (by decide) ⟨5, rfl, by decide⟩

/-- Claim C4: at order commit the stock decrement is guarded per line
(views.py:473-476): the product row for a cart line is decremented by the
line quantity only when `stock >= quantity` held at that instant, an
insufficient line is silently skipped (row unchanged), the order still
commits either way, and a non-negative stock stays non-negative. -/
theorem checkout_stock_decrement_guarded (items : List CartItem)
    (sp : Option PromoCode) (now : ℤ) (sm : Option ShippingMethod)
    (smin : ℚ) (gen : String) (hne : items ≠ [])
    (hmin : ¬ (smin > 0 ∧ cartTotalPrice items < smin)) :
    (∃ r, checkout items sp now sm smin gen = some r ∧
        r.products = items.map stockUpdateRow) ∧
    ∀ it ∈ items,
      (0 ≤ it.product.stock → 0 ≤ (stockUpdateRow it).stock) ∧
      ((it.quantity : ℤ) ≤ it.product.stock →
        (stockUpdateRow it).stock = it.product.stock - it.quantity) ∧
      (it.product.stock < (it.quantity : ℤ) →
        (stockUpdateRow it).stock = it.product.stock) := by
  constructor
  · exact ⟨_, checkout_eq items sp now sm smin gen hne hmin, rfl⟩
  · intro it hit
    unfold stockUpdateRow
    split_ifs with hq <;>
      refine ⟨fun h => ?_, fun h => ?_, fun h => ?_⟩ <;> (try simp) <;> omega

/-- Witness for `checkout_stock_decrement_guarded`: a concrete two-line
cart — one line with ample stock, one whose quantity exceeds stock — still
commits, and the product rows are updated by the guarded decrement. -/
theorem checkout_stock_decrement_guarded_witness :
    ∃ r, checkout [exItem, exItemLowStock] none 10 none 0 "ORD-2" = some r ∧
      r.products = [exItem, exItemLowStock].map stockUpdateRow :=
  (checkout_stock_decrement_guarded [exItem, exItemLowStock] none 10 none 0
    "ORD-2" (by simp) (by norm_num)).1

/-- Claim C2, counterexample: checking out with the applied promo
`exExpiredPromo` — active but past its validity window, so re-validation
against the fresh total fails — still commits an order that REFERENCES the
promo and still increments its `used_count` from 0 to 1 (views.py:424,
478-481); only the discount is dropped to 0.  This refutes the claim that
a promo whose re-validation fails is dropped from the committed order and
its `used_count` left unincremented. -/
theorem checkout_expired_promo_referenced_and_counted :
    (exExpiredPromo.is_valid 10 (cartTotalPrice [exItem])).1 = false ∧
    exExpiredPromo.used_count = 0 ∧
    (checkout [exItem] (some exExpiredPromo) 10 none 0 "ORD-1").map
        (fun r => (r.order.promo_code, r.order.discount_amount, r.promoAfter))
      = some (some exExpiredPromo, 0,
          some { exExpiredPromo with used_count := 1 }) := by
  have hval : (exExpiredPromo.is_valid 10 (cartTotalPrice [exItem])).1 = false := by
    simp [PromoCode.is_valid, exExpiredPromo]
  refine ⟨hval, rfl, ?_⟩
  rw [checkout_eq [exItem] (some exExpiredPromo) 10 none 0 "ORD-1"
    (by simp) (by norm_num)]
  have hu : exExpiredPromo.used_count = 0 := rfl
  simp [Order.save, checkoutDiscount, hval, PromoCode.use, hu]

/-- Claim C2, amended: during checkout the applied promo is re-validated
against the freshly recomputed cart total and, when the re-validation
fails, the checkout still commits with `discount_amount = 0` — but the
committed order still references the promo and `PromoCode.use` still
increments its `used_count` (by exactly one per committed checkout that
carries a session promo, valid or not). -/
theorem checkout_failed_promo_still_used (items : List CartItem)
    (p : PromoCode) (now : ℤ) (sm : Option ShippingMethod) (smin : ℚ)
    (gen : String) (hne : items ≠ [])
    (hmin : ¬ (smin > 0 ∧ cartTotalPrice items < smin))
    (hinvalid : (p.is_valid now (cartTotalPrice items)).1 = false) :
    ∃ r, checkout items (some p) now sm smin gen = some r ∧
      r.order.discount_amount = 0 ∧
      r.order.promo_code = some p ∧
      r.promoAfter = some p.use ∧
      p.use.used_count = p.used_count + 1 := by
  refine ⟨_, checkout_eq items (some p) now sm smin gen hne hmin,
    ?_, ?_, rfl, rfl⟩
  · rw [(order_save_fresh_projections gen _ rfl).2.2.2.1]
    simp [checkoutDiscount, hinvalid]
  · exact (order_save_fresh_projections gen _ rfl).2.2.2.2.1

/-- Witness for `checkout_failed_promo_still_used`: the concrete expired
promo checkout commits, references the promo, and increments its usage. -/
theorem checkout_failed_promo_still_used_witness :
    ∃ r, checkout [exItem] (some exExpiredPromo) 10 none 0 "ORD-1" = some r ∧
      r.order.discount_amount = 0 ∧
      r.order.promo_code = some exExpiredPromo ∧
      r.promoAfter = some exExpiredPromo.use ∧
      exExpiredPromo.use.used_count = exExpiredPromo.used_count + 1 :=
  checkout_failed_promo_still_used [exItem] exExpiredPromo 10 none 0 "ORD-1"
    (by simp) (by norm_num)
    (by simp [PromoCode.is_valid, exExpiredPromo])

/-- Claim C5, counterexample: `calculate_tax` (utils.py:137-139) is
`Decimal(str(round(float(amount) * 0.18, 2)))`, which rounds the binary64
product — not the exact decimal product, and not half-up.  At amount 1.25
the exact product is 0.225, whose half-up rounding is 0.23, but the float
product `1.25 * 0.18` is the binary64 value just below 0.225, so the code
yields 0.22: the claimed standard round-half-up rule gives a different
answer than the code on this input. -/
theorem calculate_tax_not_half_up :
    calculate_tax (5/4) (18/100) = 11/50 ∧
      calculate_tax_specHalfUp (5/4) = 23/100 ∧
      calculate_tax (5/4) (18/100) ≠ calculate_tax_specHalfUp (5/4) := by
  have hcode : calculate_tax (5/4) (18/100) = 11/50 := by
    have hA : roundToDouble (5/4) = 5/4 := by
      have hl : floorLog2 (5/4) = 0 :=
        floorLog2_eval (by norm_num) (by norm_num) (by norm_num)
      norm_num [roundToDouble, roundToDoublePos, hl, rnHalfEvenZ]
    have hB : roundToDouble (9/50) = 3242591731706757/18014398509481984 := by
      have hl : floorLog2 (9/50) = -3 :=
        floorLog2_eval (by norm_num) (by norm_num) (by norm_num)
      norm_num [roundToDouble, roundToDoublePos, hl, rnHalfEvenZ]
    have hC : roundToDouble (16212958658533785/72057594037927936) =
        2026619832316723/9007199254740992 := by
      have hl : floorLog2 (16212958658533785/72057594037927936) = -3 :=
        floorLog2_eval (by norm_num) (by norm_num) (by norm_num)
      norm_num [roundToDouble, roundToDoublePos, hl, rnHalfEvenZ]
    rw [calculate_tax, hA]
    rw [show (18/100 : ℚ) = 9/50 by norm_num]
    rw [hB]
    rw [show (5/4 : ℚ) * (3242591731706757/18014398509481984) =
      16212958658533785/72057594037927936 by norm_num]
    rw [hC]
    norm_num [rnHalfEvenZ]
  have hspec : calculate_tax_specHalfUp (5/4) = 23/100 := by
    norm_num [calculate_tax_specHalfUp]
  refine ⟨hcode, hspec, ?_⟩
  rw [hcode, hspec]
  norm_num

/-- Claim C5, amended: `calculate_tax` returns the binary64 product
`float(amount) * 0.18` rounded to 2 decimal places by Python `round`
(nearest, ties to even, computed on the float value — which can differ
from exact half-up rounding, e.g. 1.25 ↦ 0.22 not 0.23); the result is
always an exact multiple of 0.01, and during checkout it is applied to
`subtotal - discount_amount` (views.py:404), never to the pre-discount
subtotal. -/
theorem calculate_tax_two_decimals_applied_to_discounted
    (items : List CartItem) (sp : Option PromoCode) (now : ℤ)
    (sm : Option ShippingMethod) (smin : ℚ) (gen : String)
    (hne : items ≠ [])
    (hmin : ¬ (smin > 0 ∧ cartTotalPrice items < smin)) :
    (∀ amount : ℚ, ∃ n : ℤ, calculate_tax amount (18/100) = (n : ℚ) / 100) ∧
    ∃ r, checkout items sp now sm smin gen = some r ∧
      r.order.subtotal = cartTotalPrice items ∧
      r.order.discount_amount = checkoutDiscount items sp now ∧
      r.order.tax_amount =
        calculate_tax (r.order.subtotal - r.order.discount_amount) (18/100) := by
  constructor
  · intro amount
    exact ⟨rnHalfEvenZ
      (roundToDouble (roundToDouble amount * roundToDouble (18/100)) * 100),
      rfl⟩
  · refine ⟨_, checkout_eq items sp now sm smin gen hne hmin, ?_, ?_, ?_⟩
    · exact (order_save_fresh_projections gen _ rfl).1
    · exact (order_save_fresh_projections gen _ rfl).2.2.2.1
    · rw [(order_save_fresh_projections gen _ rfl).2.1,
        (order_save_fresh_projections gen _ rfl).1,
        (order_save_fresh_projections gen _ rfl).2.2.2.1]

/-- Witness for `calculate_tax_two_decimals_applied_to_discounted`: a
concrete one-line checkout commits with its tax computed from the
discounted subtotal. -/
theorem calculate_tax_applied_witness :
    ∃ r, checkout [exItem] none 10 none 0 "ORD-3" = some r ∧
      r.order.subtotal = cartTotalPrice [exItem] ∧
      r.order.discount_amount = checkoutDiscount [exItem] none 10 ∧
      r.order.tax_amount =
        calculate_tax (r.order.subtotal - r.order.discount_amount) (18/100) :=
  (calculate_tax_two_decimals_applied_to_discounted [exItem] none 10 none 0
    "ORD-3" (by simp) (by norm_num)).2

/-- Claim C9: `cart_add` (views.py:267-286) upserts: it rejects an
unavailable product; for an available product, if the cart already has a
line for it (at most one can exist, `unique_together` models.py:272, taken
as the hypothesis `huniq`) that line's quantity is incremented by
`max(requested, 1)`, and otherwise a new line is created with quantity
`max(requested, 1) ≥ 1`; afterwards exactly one line for the product
exists. -/
theorem cart_add_upsert (cart : List CartItem) (p : Product) (req : ℤ)
    (hav : p.available = true)
    (huniq : cart.countP (fun it => it.product.id == p.id) ≤ 1) :
    ∃ cart', cart_add cart p req = some cart' ∧
      cart'.countP (fun it => it.product.id == p.id) = 1 ∧
      1 ≤ (max req 1).toNat ∧
      (∀ it ∈ cart, it.product.id = p.id →
        { it with quantity := it.quantity + (max req 1).toNat } ∈ cart') ∧
      ((∀ it ∈ cart, it.product.id ≠ p.id) →
        cart' = cart ++ [{ product := p, quantity := (max req 1).toNat }]) := by
  have hmax : 1 ≤ (max req 1).toNat := by
    have h := le_max_right req 1
    omega
  unfold cart_add
  rw [if_neg (by simp [hav])]
  by_cases hany : cart.any (fun it => it.product.id == p.id)
  · rw [if_pos hany]
    refine ⟨_, rfl, ?_, hmax, ?_, ?_⟩
    · rw [List.countP_map]
      have hcong : cart.countP
          ((fun it => it.product.id == p.id) ∘ fun it =>
            if it.product.id == p.id then
              { it with quantity := it.quantity + (max req 1).toNat }
            else it) = cart.countP (fun it => it.product.id == p.id) := by
        apply List.countP_congr
        intro a ha
        by_cases hid : a.product.id = p.id
        · simp [hid]
        · simp [hid]
      rw [hcong]
      rw [List.any_eq_true] at hany
      obtain ⟨x, hx, hpx⟩ := hany
      have hpos : 0 < cart.countP (fun it => it.product.id == p.id) := by
        rw [List.countP_pos_iff]
        exact ⟨x, hx, hpx⟩
      omega
    · intro it hit hid
      exact List.mem_map.mpr ⟨it, hit, by simp [hid]⟩
    · intro hall
      rw [List.any_eq_true] at hany
      obtain ⟨x, hx, hpx⟩ := hany
      exact absurd (by simpa using hpx) (hall x hx)
  · rw [if_neg hany]
    refine ⟨_, rfl, ?_, hmax, ?_, fun _ => rfl⟩
    · rw [List.countP_append]
      have h0 : cart.countP (fun it => it.product.id == p.id) = 0 := by
        rw [List.countP_eq_zero]
        intro a ha hpa
        exact hany (List.any_eq_true.mpr ⟨a, ha, hpa⟩)
      rw [h0]
      simp
    · intro it hit hid
      exact absurd (List.any_eq_true.mpr ⟨it, hit, by simp [hid]⟩) hany

/-- Witness for `cart_add_upsert`: re-adding `exProduct` (already in the
cart as `exItem` with quantity 2, requested quantity 3) leaves exactly one
line for it, with quantity 2 + 3. -/
theorem cart_add_upsert_witness :
    ∃ cart', cart_add [exItem] exProduct 3 = some cart' ∧
      cart'.countP (fun it => it.product.id == exProduct.id) = 1 ∧
      { exItem with quantity := exItem.quantity + (max (3:ℤ) 1).toNat } ∈
        cart' := by
  obtain ⟨c, h1, h2, _, h4, _⟩ :=
    cart_add_upsert [exItem] exProduct 3 rfl (by simp [exItem, exProduct])
  exact ⟨c, h1, h2, h4 exItem (by simp) rfl⟩

/-- Claim C10: a `discount_price` stored as exactly 0 behaves as if unset —
Python's `discount_price or price` (models.py:280, views.py:464) treats
both `None` and 0 as falsy — so the effective price in the cart item cost
and in the checkout's OrderItem price snapshot is the full list price, not
0. -/
theorem zero_discount_price_uses_list_price (items : List CartItem)
    (sp : Option PromoCode) (now : ℤ) (sm : Option ShippingMethod)
    (smin : ℚ) (gen : String) :
    (∀ b : ℚ, orDecimal (some 0) b = orDecimal none b) ∧
    (∀ it : CartItem, it.product.discount_price = some 0 →
      it.get_cost = it.product.price * it.quantity) ∧
    (items ≠ [] → ¬ (smin > 0 ∧ cartTotalPrice items < smin) →
      ∃ r, checkout items sp now sm smin gen = some r ∧
        r.orderItems = items.map orderItemRow ∧
        ∀ oi ∈ r.orderItems, oi.product.discount_price = some 0 →
          oi.price = oi.product.price) := by
  refine ⟨fun b => by simp [orDecimal], ?_, ?_⟩
  · intro it h
    unfold CartItem.get_cost
    rw [h]
    simp [orDecimal]
  · intro hne hmin
    refine ⟨_, checkout_eq items sp now sm smin gen hne hmin, rfl, ?_⟩
    intro oi hoi hzero
    obtain ⟨it, hit, rfl⟩ := List.mem_map.mp hoi
    simp only [orderItemRow] at hzero ⊢
    rw [hzero]
    simp [orDecimal]

/-- Witness for `zero_discount_price_uses_list_price`: the concrete line
`exItemZeroDisc` (discount_price stored as 0) costs list price × quantity,
and a checkout of it snapshots the list price. -/
theorem zero_discount_price_witness :
    exItemZeroDisc.get_cost =
        exItemZeroDisc.product.price * exItemZeroDisc.quantity ∧
      ∃ r, checkout [exItemZeroDisc] none 10 none 0 "ORD-4" = some r ∧
        r.orderItems = [exItemZeroDisc].map orderItemRow ∧
        ∀ oi ∈ r.orderItems, oi.product.discount_price = some 0 →
          oi.price = oi.product.price := by
  have h := zero_discount_price_uses_list_price [exItemZeroDisc] none 10
    none 0 "ORD-4"
  exact ⟨h.2.1 exItemZeroDisc rfl, h.2.2 (by simp) (by norm_num)⟩

end Store
